import Mathlib

/-!
# dmicro: client options, codec registry, server log setting and shutdown sweep

A shallow embedding of

* `client/options.go`   (`Options`, `NewOptions`, `EndpointConfig`, the `Opt*` constructors),
* `dserver/server.go`   (`initLogSetting`, `firstSweep`, `BeforeStop`),
* the codec registry used by `drpc/codec/codec_test.go`,

together with the properties stated about them.

Conventions of the embedding:

* a Go interface value, pointer or func value is `Option Nat`: `none` is `nil`,
  `some i` is the object with identity `i`;
* `time.Duration` and `int` are `Int` (no arithmetic is performed on them here);
* a run-time panic (method call on a nil interface) is the result `none`;
* state reached through a pointer is passed explicitly.
-/

set_option autoImplicit false

namespace client

/-- Go `time.Duration` (a signed count of nanoseconds). -/
abbrev Duration := Int

/-- Go `context.Context` (interface value). -/
abbrev Context := Option Nat

/-- Go `*tls.Config` (pointer). -/
abbrev TlsConfig := Option Nat

/-- Go `proto.ProtoFunc` (func value). -/
abbrev ProtoFunc := Option Nat

/-- Go `registry.Registry` (interface value). -/
abbrev Registry := Option Nat

/-- Go `selector.Selector` (interface value). -/
abbrev Selector := Option Nat

/-- Go `drpc.Plugin` (interface value). -/
abbrev Plugin := Option Nat

/-- The struct `Options` of `client/options.go`, field by field. -/
structure Options where
  Context : Context
  Network : String
  LocalIP : String
  TlsCertFile : String
  TlsKeyFile : String
  TLSConfig : TlsConfig
  ProtoFunc : ProtoFunc
  SessionAge : Duration
  ContextAge : Duration
  DialTimeout : Duration
  SlowCometDuration : Duration
  BodyCodec : String
  PrintDetail : Bool
  CountTime : Bool
  HeartbeatTime : Duration
  Registry : Registry
  Selector : Selector
  RetryTimes : Int
  GlobalPlugin : List Plugin
  deriving DecidableEq, Repr

/-- The package-level values `NewOptions` reads that are declared outside
`options.go`: the `default*` constants of package `client`, the value of
`drpc.DefaultProtoFunc()` and of `context.Background()`. They are parameters. -/
structure PackageConsts where
  defaultBodyCodec : String
  defaultSessionAge : Duration
  defaultContextAge : Duration
  defaultDialTimeout : Duration
  defaultSlowCometDuration : Duration
  defaultRetryTimes : Int
  DefaultProtoFunc : ProtoFunc
  Background : Context
  deriving DecidableEq, Repr

/-- The state of the selector objects: for the selector with identity `i`,
`none` when it was never initialised with a registry, `some r` when its
registry reference is `r`. -/
abbrev SelectorHeap := Nat → Option Registry

/-- Modelled from the spec: the method `Init(selector.Registry(r))` of
`selector.Selector` (package `selector` is not among the sources). The spec
says that it "initializes the paired Selector's internal registry reference":
the selector `s` holds `r` afterwards, every other selector is untouched. -/
def SelectorHeap.Init (h : SelectorHeap) (s : Nat) (r : Registry) : SelectorHeap :=
  fun i => if i = s then some r else h i

/-- What an `Option` function can read and write: the `Options` behind the
pointer it receives, and the selector objects. -/
structure World where
  opts : Options
  selectors : SelectorHeap

/-- Go `type Option func(*Options)`; `none` is a run-time panic. -/
abbrev OptionFn := World → Option World

/-- The composite literal `NewOptions` starts from. `TlsCertFile`, `TlsKeyFile`,
`TLSConfig`, `Registry`, `Selector` and `GlobalPlugin` are not listed in it and
have their zero values. -/
def defaultOptions (K : PackageConsts) : Options :=
  { Context := K.Background
    Network := "tcp"
    LocalIP := "0.0.0.0"
    TlsCertFile := ""
    TlsKeyFile := ""
    TLSConfig := none
    ProtoFunc := K.DefaultProtoFunc
    SessionAge := K.defaultSessionAge
    ContextAge := K.defaultContextAge
    DialTimeout := K.defaultDialTimeout
    SlowCometDuration := K.defaultSlowCometDuration
    BodyCodec := K.defaultBodyCodec
    PrintDetail := false
    CountTime := false
    HeartbeatTime := 0
    Registry := none
    Selector := none
    RetryTimes := K.defaultRetryTimes
    GlobalPlugin := [] }

/-- The loop `for _, o := range options { o(&opts) }`. -/
def applyAll : List OptionFn → World → Option World
  | [], w => some w
  | o :: rest, w => (o w).bind (applyAll rest)

/-- Function `NewOptions(options...)`, run with the selector objects in state `h`. -/
def NewOptions (K : PackageConsts) (options : List OptionFn) (h : SelectorHeap) : Option World :=
  applyAll options { opts := defaultOptions K, selectors := h }

/-- The struct `drpc.EndpointConfig`, restricted to the fields that
`Options.EndpointConfig` writes (its declaration is outside the sources; any
further field keeps its zero value). -/
structure EndpointConfig where
  Network : String
  LocalIP : String
  DefaultBodyCodec : String
  DefaultSessionAge : Duration
  DefaultContextAge : Duration
  SlowCometDuration : Duration
  PrintDetail : Bool
  CountTime : Bool
  DialTimeout : Duration
  deriving DecidableEq, Repr

/-- Method `func (that *Options) EndpointConfig() drpc.EndpointConfig`. -/
def Options.EndpointConfig (that : Options) : EndpointConfig :=
  { Network := that.Network
    LocalIP := that.LocalIP
    DefaultBodyCodec := that.BodyCodec
    DefaultSessionAge := that.SessionAge
    DefaultContextAge := that.ContextAge
    SlowCometDuration := that.SlowCometDuration
    PrintDetail := that.PrintDetail
    CountTime := that.CountTime
    DialTimeout := that.DialTimeout }

/-- Constructor `OptRegistry(r)`: stores `r`, then calls `o.Selector.Init(selector.Registry(r))`,
discarding the error. With a nil `o.Selector` the method call panics. -/
def OptRegistry (r : Registry) : OptionFn := fun w =>
  let o := { w.opts with Registry := r }
  match o.Selector with
  | none => none
  | some s => some { opts := o, selectors := w.selectors.Init s r }

/-- Constructor `OptSelector(s)`. -/
def OptSelector (s : Selector) : OptionFn := fun w =>
  some { w with opts := { w.opts with Selector := s } }

/-- Constructor `OptGlobalPlugin(plugin...)`: `o.GlobalPlugin = append(o.GlobalPlugin, plugin...)`. -/
def OptGlobalPlugin (plugin : List Plugin) : OptionFn := fun w =>
  some { w with opts := { w.opts with GlobalPlugin := w.opts.GlobalPlugin ++ plugin } }

/-- Constructor `OptHeartbeatTime(t)`. -/
def OptHeartbeatTime (t : Duration) : OptionFn := fun w =>
  some { w with opts := { w.opts with HeartbeatTime := t } }

/-- Constructor `OptTlsFile(tlsCertFile, tlsKeyFile)`. -/
def OptTlsFile (tlsCertFile : String) (tlsKeyFile : String) : OptionFn := fun w =>
  some { w with opts := { w.opts with TlsCertFile := tlsCertFile, TlsKeyFile := tlsKeyFile } }

/-- Constructor `OptTlsConfig(config)`. -/
def OptTlsConfig (config : TlsConfig) : OptionFn := fun w =>
  some { w with opts := { w.opts with TLSConfig := config } }

/-- Constructor `OptProtoFunc(pf)`. -/
def OptProtoFunc (pf : ProtoFunc) : OptionFn := fun w =>
  some { w with opts := { w.opts with ProtoFunc := pf } }

/-- Constructor `OptRetryTimes(n)`. -/
def OptRetryTimes (n : Int) : OptionFn := fun w =>
  some { w with opts := { w.opts with RetryTimes := n } }

/-- Constructor `OptSessionAge(n)`. -/
def OptSessionAge (n : Duration) : OptionFn := fun w =>
  some { w with opts := { w.opts with SessionAge := n } }

/-- Constructor `OptContextAge(n)`. -/
def OptContextAge (n : Duration) : OptionFn := fun w =>
  some { w with opts := { w.opts with ContextAge := n } }

/-- Constructor `OptSlowCometDuration(n)`. -/
def OptSlowCometDuration (n : Duration) : OptionFn := fun w =>
  some { w with opts := { w.opts with SlowCometDuration := n } }

/-- Constructor `OptBodyCodec(c)`. -/
def OptBodyCodec (c : String) : OptionFn := fun w =>
  some { w with opts := { w.opts with BodyCodec := c } }

/-- Constructor `OptPrintDetail(c)`. -/
def OptPrintDetail (c : Bool) : OptionFn := fun w =>
  some { w with opts := { w.opts with PrintDetail := c } }

/-- Constructor `OptCountTime(c)`. -/
def OptCountTime (c : Bool) : OptionFn := fun w =>
  some { w with opts := { w.opts with CountTime := c } }

/-- Constructor `OptNetwork(net)`. -/
def OptNetwork (net : String) : OptionFn := fun w =>
  some { w with opts := { w.opts with Network := net } }

/-- Constructor `OptLocalIP(addr)`. -/
def OptLocalIP (addr : String) : OptionFn := fun w =>
  some { w with opts := { w.opts with LocalIP := addr } }

/-- A call of one of the sixteen `Opt*` constructors of `options.go`, with its
arguments. -/
inductive OptCall where
  | registry (r : Registry)
  | selector (s : Selector)
  | globalPlugin (plugin : List Plugin)
  | heartbeatTime (t : Duration)
  | tlsFile (tlsCertFile : String) (tlsKeyFile : String)
  | tlsConfig (config : TlsConfig)
  | protoFunc (pf : ProtoFunc)
  | retryTimes (n : Int)
  | sessionAge (n : Duration)
  | contextAge (n : Duration)
  | slowCometDuration (n : Duration)
  | bodyCodec (c : String)
  | printDetail (c : Bool)
  | countTime (c : Bool)
  | network (net : String)
  | localIP (addr : String)
  deriving DecidableEq, Repr

/-- The `Option` function a constructor call returns. -/
def OptCall.toOption : OptCall → OptionFn
  | .registry r => OptRegistry r
  | .selector s => OptSelector s
  | .globalPlugin plugin => OptGlobalPlugin plugin
  | .heartbeatTime t => OptHeartbeatTime t
  | .tlsFile c k => OptTlsFile c k
  | .tlsConfig config => OptTlsConfig config
  | .protoFunc pf => OptProtoFunc pf
  | .retryTimes n => OptRetryTimes n
  | .sessionAge n => OptSessionAge n
  | .contextAge n => OptContextAge n
  | .slowCometDuration n => OptSlowCometDuration n
  | .bodyCodec c => OptBodyCodec c
  | .printDetail c => OptPrintDetail c
  | .countTime c => OptCountTime c
  | .network net => OptNetwork net
  | .localIP addr => OptLocalIP addr

/-- The names of the fields of `Options`. -/
inductive Field where
  | Context | Network | LocalIP | TlsCertFile | TlsKeyFile | TLSConfig | ProtoFunc
  | SessionAge | ContextAge | DialTimeout | SlowCometDuration | BodyCodec
  | PrintDetail | CountTime | HeartbeatTime | Registry | Selector | RetryTimes
  | GlobalPlugin
  deriving DecidableEq, Repr

/-- The fields of `Options` that the body of each option assigns. -/
def OptCall.targets : OptCall → List Field
  | .registry _ => [Field.Registry]
  | .selector _ => [Field.Selector]
  | .globalPlugin _ => [Field.GlobalPlugin]
  | .heartbeatTime _ => [Field.HeartbeatTime]
  | .tlsFile _ _ => [Field.TlsCertFile, Field.TlsKeyFile]
  | .tlsConfig _ => [Field.TLSConfig]
  | .protoFunc _ => [Field.ProtoFunc]
  | .retryTimes _ => [Field.RetryTimes]
  | .sessionAge _ => [Field.SessionAge]
  | .contextAge _ => [Field.ContextAge]
  | .slowCometDuration _ => [Field.SlowCometDuration]
  | .bodyCodec _ => [Field.BodyCodec]
  | .printDetail _ => [Field.PrintDetail]
  | .countTime _ => [Field.CountTime]
  | .network _ => [Field.Network]
  | .localIP _ => [Field.LocalIP]

/-- Whether two options assign no common field. -/
def OptCall.differentFields (a b : OptCall) : Bool :=
  a.targets.all (fun f => !b.targets.contains f)

/-- Whether the call is `OptHeartbeatTime(_)`. -/
def OptCall.isHeartbeatTime : OptCall → Bool
  | .heartbeatTime _ => true
  | _ => false

/-- Whether the call is `OptRegistry(_)`. -/
def OptCall.isRegistry : OptCall → Bool
  | .registry _ => true
  | _ => false

/-- Whether the call is `OptSelector(_)`. -/
def OptCall.isSelector : OptCall → Bool
  | .selector _ => true
  | _ => false

/-- Whether the call is `OptGlobalPlugin` with at least one plugin. -/
def OptCall.appendsPlugins : OptCall → Bool
  | .globalPlugin plugin => !plugin.isEmpty
  | _ => false

/-- Whether the option assigns one of the nine fields `EndpointConfig` reads. -/
def OptCall.feedsEndpointConfig : OptCall → Bool
  | .network _ | .localIP _ | .bodyCodec _ | .sessionAge _ | .contextAge _
  | .slowCometDuration _ | .printDetail _ | .countTime _ => true
  | _ => false

/-- Whether every `OptRegistry` of the list is applied while a selector is
held, `cur` being the selector held before the list: the condition under
which the options run without a nil method call. -/
def runsWithSelector : Selector → List OptCall → Bool
  | _, [] => true
  | cur, .registry _ :: rest => cur.isSome && runsWithSelector cur rest
  | _, .selector s :: rest => runsWithSelector s rest
  | cur, _ :: rest => runsWithSelector cur rest

end client

namespace codec

/-- A codec object: the results of its methods `ID()` (a byte) and `Name()`,
and the identity of the object itself. `Marshal` and `Unmarshal` play no part
in registration and lookup and are left out. -/
structure Codec where
  ID : Nat
  Name : String
  obj : Nat
  deriving DecidableEq, Repr

/-- The errors of the codec registry named by the spec. -/
inductive Error where
  | DuplicateIdentifier
  | CodecNotFound
  deriving DecidableEq, Repr

/-- Modelled from the spec: the process-wide codec table of package
`drpc/codec`, of which only `codec_test.go` is among the sources. The spec
describes a "registry keyed by both ID and name". -/
structure CodecMap where
  idMap : Nat → Option Codec
  nameMap : String → Option Codec

/-- Modelled from the spec: the empty codec table (package `drpc/codec` is not
among the sources). -/
def CodecMap.empty : CodecMap :=
  { idMap := fun _ => none, nameMap := fun _ => none }

/-- Modelled from the spec: `Register(codec)` of the absent package `drpc/codec`.
It "fails with `DuplicateIdentifier` only if strict mode is requested (default:
overwrite allowed ...)", and "registration of a duplicate ID or name overwrites
the prior entry (last-writer-wins)". -/
def Register (strict : Bool) (c : Codec) (m : CodecMap) : Except Error CodecMap :=
  if strict && ((m.idMap c.ID).isSome || (m.nameMap c.Name).isSome) then
    Except.error Error.DuplicateIdentifier
  else
    Except.ok
      { idMap := fun i => if i = c.ID then some c else m.idMap i
        nameMap := fun n => if n = c.Name then some c else m.nameMap n }

/-- Modelled from the spec: `codec.Reg(c)` as `codec_test.go` calls it, with no
mode argument, which is the spec's default (non-strict) registration. -/
def Reg (c : Codec) (m : CodecMap) : Except Error CodecMap :=
  Register false c m

/-- Modelled from the spec: `Get(id)` of the absent package `drpc/codec`:
"return the codec or fail with `CodecNotFound`". -/
def Get (m : CodecMap) (id : Nat) : Except Error Codec :=
  match m.idMap id with
  | some c => Except.ok c
  | none => Except.error Error.CodecNotFound

/-- Modelled from the spec: `GetByName(name)` of the absent package `drpc/codec`:
"return the codec or fail with `CodecNotFound`". -/
def GetByName (m : CodecMap) (name : String) : Except Error Codec :=
  match m.nameMap name with
  | some c => Except.ok c
  | none => Except.error Error.CodecNotFound

end codec

namespace dserver

/-- A value stored in a `g.Map` by `initLogSetting`: a string or a bool. -/
inductive Val where
  | str (s : String)
  | bool (b : Bool)
  deriving DecidableEq, Repr

/-- Go `g.Map` (`map[string]interface{}`), as far as `initLogSetting` uses it. -/
abbrev GMap := String → Option Val

/-- The map literal `g.Map{}`. -/
def GMap.empty : GMap := fun _ => none

/-- The assignment `m[k] = v`. -/
def GMap.set (m : GMap) (k : String) (v : Val) : GMap :=
  fun k' => if k' = k then some v else m k'

/-- What `initLogSetting` reads from its `*gcfg.Config`:
`config.GetString("ENV_NAME")`, `loggerCfg.GetString("Level")`,
`loggerCfg.GetString("Path")` and `config.GetBool("Debug", false)`. -/
structure LogConfig where
  ENV_NAME : String
  Level : String
  Path : String
  Debug : Bool
  deriving DecidableEq, Repr

/-- The state of the package logger as `initLogSetting` drives it: the flag
last passed to `logger.SetDebug`, the flag last passed to
`logger.SetStdoutPrint`, and the map last handed to `logger.SetConfigWithMap`
(what glog does with that map is outside the sources). -/
structure Logger where
  debug : Bool
  stdoutPrint : Bool
  configMap : Option GMap

/-- Call `logger.SetDebug(debug)`. -/
def Logger.SetDebug (l : Logger) (debug : Bool) : Logger :=
  { l with debug := debug }

/-- Call `logger.SetStdoutPrint(enabled)`. -/
def Logger.SetStdoutPrint (l : Logger) (enabled : Bool) : Logger :=
  { l with stdoutPrint := enabled }

/-- Call `logger.SetConfigWithMap(setting)`: the map is handed to glog; `glog` gives
the error glog returns for it (`none` is nil). -/
def Logger.SetConfigWithMap (glog : GMap → Option String) (l : Logger) (setting : GMap) :
    Option String × Logger :=
  (glog setting, { l with configMap := some setting })

/-- Method `func (that *DServer) initLogSetting(config *gcfg.Config) error`, statement
by statement. -/
def initLogSetting (glog : GMap → Option String) (config : LogConfig) (l0 : Logger) :
    Option String × Logger :=
  let env := config.ENV_NAME
  let level := config.Level
  let l1 := l0.SetDebug false
  let l2 := l1.SetStdoutPrint false
  let level :=
    if level.length ≤ 0 then
      if env = "dev" ∨ env = "develop" then "DEVELOP"
      else if env = "test" then "INFO"
      else "PRODUCT"
    else level
  let setConfig := GMap.empty.set "level" (Val.str level)
  let (setConfig, l3) :=
    if env = "dev" ∨ env = "develop" then
      (setConfig.set "stdout" (Val.bool true), l2.SetDebug true)
    else (setConfig, l2)
  let logPath := config.Path
  let (setConfig, l4) :=
    if logPath.length > 0 then (setConfig.set "path" (Val.str logPath), l3)
    else (setConfig, l3.SetDebug true)
  let (setConfig, l5) :=
    if config.Debug then
      (((setConfig.set "level" (Val.str "ALL")).set "stdout" (Val.bool true)), l4.SetDebug true)
    else (setConfig, l4)
  l5.SetConfigWithMap glog setConfig

/-- The fields of a `*DServer` that a before-stop callback can be handed and
that `firstSweep` reads or writes. -/
structure ServerView where
  shutting : Bool
  pidFile : String
  multiProcess : Bool
  deriving DecidableEq, Repr

/-- Go `type StopFunc func(service *DServer) bool`: the callback's answer for
the server it is handed. What the callback itself does to other objects is
outside `firstSweep`; the field `shutting` is unexported and assigned by
`firstSweep` only. -/
abbrev StopFunc := ServerView → Bool

/-- The struct `DServer`, restricted to the fields `firstSweep` and `BeforeStop`
read or write, and `multiProcess`; `beforeStopFunc` is `none` when nil. The
remaining fields are references to objects of other packages. -/
structure DServer where
  shutting : Bool
  beforeStopFunc : Option StopFunc
  pidFile : String
  multiProcess : Bool

/-- The server as a callback sees it. -/
def DServer.view (that : DServer) : ServerView :=
  { shutting := that.shutting, pidFile := that.pidFile, multiProcess := that.multiProcess }

/-- Method `func (that *DServer) BeforeStop(f StopFunc)`. -/
def DServer.BeforeStop (that : DServer) (f : Option StopFunc) : DServer :=
  { that with beforeStopFunc := f }

/-- The file system as `firstSweep` meets it: the paths that exist, and the
paths whose removal fails. -/
structure FileSystem where
  files : List String
  locked : List String
  deriving DecidableEq, Repr

/-- Call `gfile.Exists(path)`. -/
def FileSystem.Exists (fs : FileSystem) (path : String) : Bool :=
  fs.files.contains path

/-- Call `gfile.Remove(path)`: the error (`none` is nil) and the file system
afterwards. -/
def FileSystem.Remove (fs : FileSystem) (path : String) : Option String × FileSystem :=
  if fs.locked.contains path then (some ("remove " ++ path ++ ": operation not permitted"), fs)
  else (none, { fs with files := fs.files.filter (fun p => p != path) })

/-- A line `firstSweep` writes through package `logger`. -/
inductive LogLine where
  | Errorf (msg : String)
  | Printf (msg : String)
  | Warning (msg : String)
  deriving DecidableEq, Repr

/-- Everything `firstSweep` leaves behind: the returned error (`none` is nil),
the server, the file system, the lines logged, and how many times the
before-stop callback was invoked. -/
structure SweepResult where
  err : Option String
  server : DServer
  fs : FileSystem
  log : List LogLine
  callbackCalls : Nat

/-- The text of the error `firstSweep` creates with `gerror.New`. -/
def interruptedMsg : String :=
  "执行完服务停止前的回调方法，该方法强制中断了服务结束流程！"

/-- Method `func (that *DServer) firstSweep() error`, statement by statement. -/
def firstSweep (that : DServer) (fs : FileSystem) : SweepResult :=
  if that.shutting then
    { err := none, server := that, fs := fs, log := [], callbackCalls := 0 }
  else
    let that1 := { that with shutting := true }
    let (fs1, log1) :=
      if that1.pidFile.length > 0 ∧ fs.Exists that1.pidFile then
        let (e, fs') := fs.Remove that1.pidFile
        let log0 :=
          match e with
          | some msg => [LogLine.Errorf ("os.Remove: " ++ msg)]
          | none => []
        (fs', log0 ++ [LogLine.Printf ("删除pid文件[" ++ that1.pidFile ++ "]成功")])
      else (fs, [])
    match that1.beforeStopFunc with
    | none => { err := none, server := that1, fs := fs1, log := log1, callbackCalls := 0 }
    | some f =>
      if !f that1.view then
        { err := some interruptedMsg
          server := { that1 with shutting := false }
          fs := fs1
          log := log1 ++ [LogLine.Warning interruptedMsg]
          callbackCalls := 1 }
      else
        { err := none, server := that1, fs := fs1, log := log1, callbackCalls := 1 }

end dserver

/-! ## Client options: auxiliary lemmas -/

namespace client

/-- Running a concatenation of option lists is running the first list and then
the second. -/
theorem applyAll_append (xs ys : List OptionFn) (w : World) :
    applyAll (xs ++ ys) w = (applyAll xs w).bind (applyAll ys) := by
  induction xs generalizing w with
  | nil => simp [applyAll]
  | cons o rest ih =>
    simp only [List.cons_append, applyAll]
    cases o w with
    | none => simp
    | some w1 => simpa using ih w1

/-- No option other than `OptHeartbeatTime` changes `HeartbeatTime`. -/
theorem toOption_keeps_heartbeat (c : OptCall) (hc : c.isHeartbeatTime = false)
    (w w1 : World) (hw : c.toOption w = some w1) :
    w1.opts.HeartbeatTime = w.opts.HeartbeatTime := by
  cases c <;>
    simp only [OptCall.toOption, OptCall.isHeartbeatTime, OptRegistry, OptSelector,
      OptGlobalPlugin, OptHeartbeatTime,
      OptTlsFile, OptTlsConfig, OptProtoFunc, OptRetryTimes, OptSessionAge,
      OptContextAge, OptSlowCometDuration, OptBodyCodec, OptPrintDetail, OptCountTime,
      OptNetwork, OptLocalIP] at hw hc
  case registry r =>
    split at hw
    · cases hw
    · cases hw; rfl
  all_goals first | (cases hw; rfl) | cases hc

/-- A list of options without `OptHeartbeatTime` leaves `HeartbeatTime` as it was. -/
theorem applyAll_keeps_heartbeat (calls : List OptCall)
    (hc : ∀ c ∈ calls, c.isHeartbeatTime = false) (w w1 : World)
    (hw : applyAll (calls.map OptCall.toOption) w = some w1) :
    w1.opts.HeartbeatTime = w.opts.HeartbeatTime := by
  induction calls generalizing w with
  | nil => simp [applyAll] at hw; rw [hw]
  | cons c rest ih =>
    simp only [List.map_cons, applyAll] at hw
    cases h1 : c.toOption w with
    | none => simp [h1] at hw
    | some w2 =>
      rw [h1] at hw
      simp only [Option.some_bind] at hw
      rw [ih (fun d hd => hc d (List.mem_cons_of_mem _ hd)) w2 hw]
      exact toOption_keeps_heartbeat c (hc c (List.mem_cons_self _ _)) w w2 h1

/-- The option `OptRegistry(r)` completes exactly when a selector is held. -/
theorem registry_isSome (r : Registry) (w : World) :
    (OptRegistry r w).isSome = w.opts.Selector.isSome := by
  simp only [OptRegistry]
  cases w.opts.Selector <;> rfl

/-- The selector held after an option: the argument of `OptSelector`, otherwise
the one held before. -/
theorem toOption_selector (c : OptCall) (w w1 : World) (hw : c.toOption w = some w1) :
    w1.opts.Selector = match c with
      | .selector s => s
      | _ => w.opts.Selector := by
  cases c <;>
    simp only [OptCall.toOption, OptRegistry, OptSelector,
      OptGlobalPlugin, OptHeartbeatTime,
      OptTlsFile, OptTlsConfig, OptProtoFunc, OptRetryTimes, OptSessionAge,
      OptContextAge, OptSlowCometDuration, OptBodyCodec, OptPrintDetail, OptCountTime,
      OptNetwork, OptLocalIP] at hw
  case registry r =>
    split at hw
    · cases hw
    · cases hw; rfl
  all_goals (cases hw; rfl)

/-- Only `OptRegistry` can fail, and it does so exactly on a nil selector. -/
theorem toOption_isSome (c : OptCall) (w : World) :
    (c.toOption w).isSome = match c with
      | .registry _ => w.opts.Selector.isSome
      | _ => true := by
  cases c <;> try rfl
  exact registry_isSome _ w

/-- A list of options completes exactly when every `OptRegistry` in it is applied
while a selector is held. -/
theorem applyAll_isSome (calls : List OptCall) (w : World) :
    (applyAll (calls.map OptCall.toOption) w).isSome = runsWithSelector w.opts.Selector calls := by
  induction calls generalizing w with
  | nil => simp [applyAll, runsWithSelector]
  | cons c rest ih =>
    simp only [List.map_cons, applyAll]
    cases h1 : c.toOption w with
    | none =>
      have h2 := toOption_isSome c w
      rw [h1] at h2
      cases c <;> simp at h2
      simp [runsWithSelector, ← h2]
    | some w2 =>
      have h2 := toOption_isSome c w
      have h3 := toOption_selector c w w2 h1
      rw [h1] at h2
      simp only [Option.some_bind, ih w2, h3]
      cases c <;> simp_all [runsWithSelector]

/-- A list without `OptRegistry` always completes. -/
theorem runsWithSelector_of_no_registry (calls : List OptCall)
    (hr : ∀ c ∈ calls, c.isRegistry = false) (cur : Selector) :
    runsWithSelector cur calls = true := by
  induction calls generalizing cur with
  | nil => rfl
  | cons c rest ih =>
    have h1 := hr c (List.mem_cons_self _ _)
    have h2 := fun x => ih (fun d hd => hr d (List.mem_cons_of_mem _ hd)) x
    cases c <;> simp_all [runsWithSelector, OptCall.isRegistry]

/-! ## Client options: the stated properties -/

/-- Claim C1: `NewOptions` called with no option returns an `Options` whose `Network`
is "tcp", `LocalIP` is "0.0.0.0", `HeartbeatTime` is 0, `PrintDetail` and
`CountTime` are false, and whose `BodyCodec`, `SessionAge`, `ContextAge`,
`DialTimeout`, `SlowCometDuration` and `RetryTimes` are the package default
constants; and for every list of `Opt*` options that contains no
`OptHeartbeatTime`, whenever `NewOptions` returns, the `HeartbeatTime` of the
result is 0 (and it does return when the list has no `OptRegistry`). -/
theorem C1_NewOptions_defaults (K : PackageConsts) (h : SelectorHeap) :
    (∃ w, NewOptions K [] h = some w ∧ w.selectors = h ∧
      w.opts.Network = "tcp" ∧ w.opts.LocalIP = "0.0.0.0" ∧
      w.opts.HeartbeatTime = 0 ∧ w.opts.PrintDetail = false ∧ w.opts.CountTime = false ∧
      w.opts.BodyCodec = K.defaultBodyCodec ∧ w.opts.SessionAge = K.defaultSessionAge ∧
      w.opts.ContextAge = K.defaultContextAge ∧ w.opts.DialTimeout = K.defaultDialTimeout ∧
      w.opts.SlowCometDuration = K.defaultSlowCometDuration ∧
      w.opts.RetryTimes = K.defaultRetryTimes) ∧
    (∀ calls : List OptCall, (∀ c ∈ calls, c.isHeartbeatTime = false) →
      (∀ w, NewOptions K (calls.map OptCall.toOption) h = some w → w.opts.HeartbeatTime = 0) ∧
      ((∀ c ∈ calls, c.isRegistry = false) →
        ∃ w, NewOptions K (calls.map OptCall.toOption) h = some w ∧ w.opts.HeartbeatTime = 0)) := by
  refine ⟨⟨_, rfl, rfl, rfl, rfl, rfl, rfl, rfl, rfl, rfl, rfl, rfl, rfl, rfl⟩, ?_⟩
  intro calls hc
  have key : ∀ w, NewOptions K (calls.map OptCall.toOption) h = some w →
      w.opts.HeartbeatTime = 0 := by
    intro w hw
    have := applyAll_keeps_heartbeat calls hc _ w hw
    rw [this]; rfl
  refine ⟨key, fun hr => ?_⟩
  have hs : (NewOptions K (calls.map OptCall.toOption) h).isSome = true := by
    unfold NewOptions
    rw [applyAll_isSome]
    exact runsWithSelector_of_no_registry calls hr _
  obtain ⟨w, hw⟩ := Option.isSome_iff_exists.mp hs
  exact ⟨w, hw, key w hw⟩

/-- Claim C1 at a concrete input: `NewOptions(OptNetwork("udp"), OptRetryTimes(5))`
contains no `OptHeartbeatTime` and no `OptRegistry`; it returns, with
`HeartbeatTime` 0. -/
theorem C1_NewOptions_defaults_witness :
    ∃ w, NewOptions ⟨"json", 1, 1, 1, 1, 3, none, none⟩
        ([OptCall.network "udp", OptCall.retryTimes 5].map OptCall.toOption)
        (fun _ => none) = some w ∧
      w.opts.HeartbeatTime = 0 :=
  ((C1_NewOptions_defaults ⟨"json", 1, 1, 1, 1, 3, none, none⟩ (fun _ => none)).2
    [OptCall.network "udp", OptCall.retryTimes 5] (by decide)).2 (by decide)

/-- Claim C2: when two options that set the same field are the last two passed to
`NewOptions`, the later one wins: after any list `pre` of option functions on
which `NewOptions(pre...)` returns, `NewOptions(pre..., OptX(a), OptX(b))`
returns an `Options` whose field `X` is `b`; this for `OptRetryTimes`,
`OptSessionAge`, `OptContextAge`, `OptSlowCometDuration`, `OptHeartbeatTime`,
`OptBodyCodec`, `OptPrintDetail`, `OptCountTime`, `OptNetwork`, `OptLocalIP`,
`OptTlsConfig`, `OptProtoFunc`, `OptSelector`, and for both paths of
`OptTlsFile`. `NewOptions(pre...)` does return for every list of `Opt*` options
in which each `OptRegistry` is applied while a selector is held, the empty list
included; and when `NewOptions(pre...)` panics, so does every extension. -/
theorem C2_last_applied_wins (K : PackageConsts) (h : SelectorHeap) :
    (∀ (pre : List OptionFn) (w0 : World), NewOptions K pre h = some w0 →
      (∀ a b, ∃ w, NewOptions K (pre ++ [OptRetryTimes a, OptRetryTimes b]) h = some w ∧
        w.opts.RetryTimes = b) ∧
      (∀ a b, ∃ w, NewOptions K (pre ++ [OptSessionAge a, OptSessionAge b]) h = some w ∧
        w.opts.SessionAge = b) ∧
      (∀ a b, ∃ w, NewOptions K (pre ++ [OptContextAge a, OptContextAge b]) h = some w ∧
        w.opts.ContextAge = b) ∧
      (∀ a b, ∃ w, NewOptions K (pre ++ [OptSlowCometDuration a, OptSlowCometDuration b]) h = some w ∧
        w.opts.SlowCometDuration = b) ∧
      (∀ a b, ∃ w, NewOptions K (pre ++ [OptHeartbeatTime a, OptHeartbeatTime b]) h = some w ∧
        w.opts.HeartbeatTime = b) ∧
      (∀ a b, ∃ w, NewOptions K (pre ++ [OptBodyCodec a, OptBodyCodec b]) h = some w ∧
        w.opts.BodyCodec = b) ∧
      (∀ a b, ∃ w, NewOptions K (pre ++ [OptPrintDetail a, OptPrintDetail b]) h = some w ∧
        w.opts.PrintDetail = b) ∧
      (∀ a b, ∃ w, NewOptions K (pre ++ [OptCountTime a, OptCountTime b]) h = some w ∧
        w.opts.CountTime = b) ∧
      (∀ a b, ∃ w, NewOptions K (pre ++ [OptNetwork a, OptNetwork b]) h = some w ∧
        w.opts.Network = b) ∧
      (∀ a b, ∃ w, NewOptions K (pre ++ [OptLocalIP a, OptLocalIP b]) h = some w ∧
        w.opts.LocalIP = b) ∧
      (∀ a b, ∃ w, NewOptions K (pre ++ [OptTlsConfig a, OptTlsConfig b]) h = some w ∧
        w.opts.TLSConfig = b) ∧
      (∀ a b, ∃ w, NewOptions K (pre ++ [OptProtoFunc a, OptProtoFunc b]) h = some w ∧
        w.opts.ProtoFunc = b) ∧
      (∀ a b, ∃ w, NewOptions K (pre ++ [OptSelector a, OptSelector b]) h = some w ∧
        w.opts.Selector = b) ∧
      (∀ a1 a2 b1 b2, ∃ w, NewOptions K (pre ++ [OptTlsFile a1 a2, OptTlsFile b1 b2]) h = some w ∧
        w.opts.TlsCertFile = b1 ∧ w.opts.TlsKeyFile = b2)) ∧
    (∀ calls : List OptCall, runsWithSelector none calls = true →
      ∃ w0, NewOptions K (calls.map OptCall.toOption) h = some w0) ∧
    (∀ pre rest : List OptionFn, NewOptions K pre h = none →
      NewOptions K (pre ++ rest) h = none) := by
  refine ⟨?_, ?_, ?_⟩
  · intro pre w0 hpre
    unfold NewOptions at hpre ⊢
    simp only [applyAll_append, hpre]
    simp [applyAll, OptRetryTimes, OptSessionAge, OptContextAge, OptSlowCometDuration,
      OptHeartbeatTime, OptBodyCodec, OptPrintDetail, OptCountTime, OptNetwork, OptLocalIP,
      OptTlsConfig, OptProtoFunc, OptSelector, OptTlsFile]
  · intro calls hc
    apply Option.isSome_iff_exists.mp
    unfold NewOptions
    rw [applyAll_isSome]
    exact hc
  · intro pre rest hpre
    unfold NewOptions at hpre ⊢
    rw [applyAll_append, hpre]
    rfl

/-- Claim C2 at a concrete input: after `OptSelector(some 0)` and
`OptRegistry(some 7)`, `NewOptions(..., OptNetwork("udp"), OptNetwork("unix"))`
returns with `Network = "unix"`. -/
theorem C2_last_applied_wins_witness :
    ∃ w, NewOptions ⟨"json", 1, 1, 1, 1, 3, none, none⟩
        ([OptSelector (some 0), OptRegistry (some 7)] ++ [OptNetwork "udp", OptNetwork "unix"])
        (fun _ => none) = some w ∧
      w.opts.Network = "unix" :=
  ((C2_last_applied_wins ⟨"json", 1, 1, 1, 1, 3, none, none⟩ (fun _ => none)).1
    [OptSelector (some 0), OptRegistry (some 7)] _ rfl).2.2.2.2.2.2.2.2.1 "udp" "unix"

/-- Claim C3 (as stated, refuted): `OptRegistry(r)` and `OptSelector(s)` assign
different fields, yet their order matters. From an accumulator that holds
selector 0, both orders complete with the same `Options`, but applying
`OptRegistry(some 7)` before `OptSelector(some 1)` initialises selector 0 and
leaves selector 1, the one held in the result, without a registry, whereas the
other order initialises selector 1. -/
theorem C3_counterexample :
    (OptCall.registry (some 7)).differentFields (OptCall.selector (some 1)) = true ∧
    (((OptCall.registry (some 7)).toOption
        { opts := { defaultOptions ⟨"json", 1, 1, 1, 1, 3, none, none⟩ with Selector := some 0 },
          selectors := fun _ => none }).bind (OptCall.selector (some 1)).toOption).map
      (fun w => (w.opts.Registry, w.opts.Selector, w.selectors 0, w.selectors 1))
      = some (some 7, some 1, some (some 7), none) ∧
    (((OptCall.selector (some 1)).toOption
        { opts := { defaultOptions ⟨"json", 1, 1, 1, 1, 3, none, none⟩ with Selector := some 0 },
          selectors := fun _ => none }).bind (OptCall.registry (some 7)).toOption).map
      (fun w => (w.opts.Registry, w.opts.Selector, w.selectors 0, w.selectors 1))
      = some (some 7, some 1, none, some (some 7)) ∧
    ((OptCall.registry (some 7)).toOption
        { opts := { defaultOptions ⟨"json", 1, 1, 1, 1, 3, none, none⟩ with Selector := some 0 },
          selectors := fun _ => none }).bind (OptCall.selector (some 1)).toOption
      ≠ ((OptCall.selector (some 1)).toOption
        { opts := { defaultOptions ⟨"json", 1, 1, 1, 1, 3, none, none⟩ with Selector := some 0 },
          selectors := fun _ => none }).bind (OptCall.registry (some 7)).toOption := by
  refine ⟨by decide, rfl, rfl, fun h => ?_⟩
  have h1 := congrArg (Option.map (fun w => w.selectors 0)) h
  exact absurd h1 (by decide)

/-- Claim C3 (amended): for every accumulator and every two `Opt*` options that
assign different fields, other than the pair `OptRegistry`/`OptSelector`, the
accumulator holding a selector when one of the two is `OptRegistry`: applying
them in either order completes with the same result (the same `Options` and
the same selector state). For `OptRegistry(r)` and `OptSelector(s)` with `s` not
nil, from an accumulator that holds a selector, both orders complete with the
same `Options` (`Registry = r`, `Selector = s`); and when `OptSelector(s)` is
applied before `OptRegistry(r)`, the selector held in the result is the one
that was initialised with `r`, every other selector being left as it was. -/
theorem C3_order_commutative :
    (∀ (w : World) (a b : OptCall), a.differentFields b = true →
      ((a.isRegistry && b.isSelector) || (a.isSelector && b.isRegistry)) = false →
      ((a.isRegistry || b.isRegistry) = true → w.opts.Selector.isSome = true) →
      ∃ w1, (a.toOption w).bind b.toOption = some w1 ∧
        (b.toOption w).bind a.toOption = some w1) ∧
    (∀ (w : World) (r : Registry) (s s0 : Nat), w.opts.Selector = some s0 →
      ∃ w1 w2, (OptRegistry r w).bind (OptSelector (some s)) = some w1 ∧
        (OptSelector (some s) w).bind (OptRegistry r) = some w2 ∧
        w1.opts = w2.opts ∧
        w2.opts = { w.opts with Registry := r, Selector := some s } ∧
        w2.selectors s = some r ∧
        (∀ i, i ≠ s → w2.selectors i = w.selectors i)) := by
  constructor
  · intro w a b hd hp hs
    rcases w with ⟨⟨ctx, net, ip, cert, key, tls, pf, sa, ca, dt, scd, bc, pd, ct, hb, reg,
      sel, rt, gp⟩, heap⟩
    cases sel <;> cases a <;> cases b <;>
      first
        | exact ⟨_, rfl, rfl⟩
        | exact absurd hd Bool.false_ne_true
        | exact absurd hp (by decide : ¬ (true = false))
        | exact absurd (hs rfl) Bool.false_ne_true
  · intro w r s s0 hs
    rcases w with ⟨⟨ctx, net, ip, cert, key, tls, pf, sa, ca, dt, scd, bc, pd, ct, hb, reg,
      sel, rt, gp⟩, heap⟩
    cases hs
    refine ⟨_, _, rfl, rfl, rfl, rfl, ?_, ?_⟩
    · simp [SelectorHeap.Init]
    · intro i hi
      simp [SelectorHeap.Init, hi]

/-- Claim C3 (amended), at a concrete input: on an accumulator holding selector
0, `OptRegistry(some 7)` and `OptNetwork("udp")` commute; and
`OptRegistry(some 7)` and `OptSelector(some 1)` complete in both orders with the
same `Options`, selector 1 holding registry 7 when `OptSelector` came first. -/
theorem C3_order_commutative_witness :
    (∃ w1,
      ((OptCall.registry (some 7)).toOption
        { opts := { defaultOptions ⟨"json", 1, 1, 1, 1, 3, none, none⟩ with Selector := some 0 },
          selectors := fun _ => none }).bind (OptCall.network "udp").toOption = some w1 ∧
      ((OptCall.network "udp").toOption
        { opts := { defaultOptions ⟨"json", 1, 1, 1, 1, 3, none, none⟩ with Selector := some 0 },
          selectors := fun _ => none }).bind (OptCall.registry (some 7)).toOption = some w1) ∧
    (∃ w1 w2,
      (OptRegistry (some 7)
        { opts := { defaultOptions ⟨"json", 1, 1, 1, 1, 3, none, none⟩ with Selector := some 0 },
          selectors := fun _ => none }).bind (OptSelector (some 1)) = some w1 ∧
      (OptSelector (some 1)
        { opts := { defaultOptions ⟨"json", 1, 1, 1, 1, 3, none, none⟩ with Selector := some 0 },
          selectors := fun _ => none }).bind (OptRegistry (some 7)) = some w2 ∧
      w1.opts = w2.opts ∧ w2.opts.Registry = some 7 ∧ w2.opts.Selector = some 1 ∧
      w2.selectors 1 = some (some 7)) := by
  refine ⟨C3_order_commutative.1 _ _ _ (by decide) (by decide) (fun _ => by decide), ?_⟩
  obtain ⟨w1, w2, h1, h2, h3, h4, h5, _⟩ := C3_order_commutative.2
    { opts := { defaultOptions ⟨"json", 1, 1, 1, 1, 3, none, none⟩ with Selector := some 0 },
      selectors := fun _ => none } (some 7) 1 0 rfl
  exact ⟨w1, w2, h1, h2, h3, by rw [h4], by rw [h4], h5⟩

/-- Claim C4 (as stated, refuted): `OptGlobalPlugin` with a non-empty plugin list is
not idempotent. On the default options, applying `OptGlobalPlugin(p)` once
gives `GlobalPlugin = [p]`, applying it twice gives `[p, p]`. -/
theorem C4_counterexample :
    ((OptCall.globalPlugin [some 5]).toOption
        { opts := defaultOptions ⟨"json", 1, 1, 1, 1, 3, none, none⟩,
          selectors := fun _ => none }).map (·.opts.GlobalPlugin) = some [some 5] ∧
    (((OptCall.globalPlugin [some 5]).toOption
        { opts := defaultOptions ⟨"json", 1, 1, 1, 1, 3, none, none⟩,
          selectors := fun _ => none }).bind (OptCall.globalPlugin [some 5]).toOption).map
      (·.opts.GlobalPlugin) = some [some 5, some 5] := by
  exact ⟨rfl, rfl⟩

/-- Claim C4 (amended): every option built by an `Opt*` constructor other than
`OptGlobalPlugin` with a non-empty plugin list is idempotent: applying it twice
has the same result as applying it once (and it completes whenever it is not
`OptRegistry` or the accumulator holds a selector). `OptGlobalPlugin(ps)`
appends: applied twice it leaves `GlobalPlugin` extended by `ps` twice. -/
theorem C4_idempotent :
    (∀ (w : World) (f : OptCall), f.appendsPlugins = false →
      (f.toOption w).bind f.toOption = f.toOption w ∧
      ((f.isRegistry = true → w.opts.Selector.isSome = true) →
        ∃ w1, f.toOption w = some w1)) ∧
    (∀ (w : World) (ps : List Plugin),
      (OptGlobalPlugin ps w).bind (OptGlobalPlugin ps)
        = some { w with opts := { w.opts with
                   GlobalPlugin := w.opts.GlobalPlugin ++ ps ++ ps } }) := by
  constructor
  · intro w f hf
    rcases w with ⟨⟨ctx, net, ip, cert, key, tls, pf, sa, ca, dt, scd, bc, pd, ct, hb, reg,
      sel, rt, gp⟩, heap⟩
    constructor
    · cases sel <;> cases f <;> try rfl
      case some.registry s r =>
        simp only [OptCall.toOption, OptRegistry, Option.some_bind, Option.some.injEq,
          World.mk.injEq, true_and]
        funext i
        simp only [SelectorHeap.Init]
        split <;> rfl
      all_goals
        simp only [OptCall.appendsPlugins, Bool.not_eq_eq_eq_not, Bool.not_false,
          List.isEmpty_iff] at hf
        subst hf
        simp [OptCall.toOption, OptGlobalPlugin]
    · intro hs
      cases sel <;> cases f <;>
        first
          | exact ⟨_, rfl⟩
          | exact absurd (hs rfl) Bool.false_ne_true
  · intro w ps
    rfl

/-- Claim C4 (amended), at a concrete input: `OptNetwork("udp")` applied twice to the
default options is `OptNetwork("udp")` applied once. -/
theorem C4_idempotent_witness :
    ((OptCall.network "udp").toOption
        { opts := defaultOptions ⟨"json", 1, 1, 1, 1, 3, none, none⟩,
          selectors := fun _ => none }).bind (OptCall.network "udp").toOption
      = (OptCall.network "udp").toOption
        { opts := defaultOptions ⟨"json", 1, 1, 1, 1, 3, none, none⟩,
          selectors := fun _ => none } :=
  (C4_idempotent.1 _ _ (by decide)).1

/-- Claim C5 (the code at the failing inputs): `NewOptions(OptRegistry(r))` panics,
because the default options hold no selector for `OptRegistry` to initialise,
and so does `NewOptions(OptRegistry(r), OptSelector(s))`. When a selector is
set, then the registry, then another selector, construction completes with
`Registry = r` and a selector that was never initialised with `r`. In general
the construction completes exactly when every `OptRegistry` is applied while a
selector is held. -/
theorem C5_registry_without_selector (K : PackageConsts) (h : SelectorHeap) (r : Registry) :
    NewOptions K [OptRegistry r] h = none ∧
    (∀ s, NewOptions K [OptRegistry r, OptSelector s] h = none) ∧
    (NewOptions K [OptSelector (some 0), OptRegistry r, OptSelector (some 1)] h).map
      (fun w => (w.opts.Registry, w.opts.Selector, w.selectors 1)) = some (r, some 1, h 1) ∧
    (∀ calls : List OptCall,
      (NewOptions K (calls.map OptCall.toOption) h).isSome = runsWithSelector none calls) := by
  refine ⟨rfl, fun _ => rfl, rfl, fun calls => ?_⟩
  unfold NewOptions
  rw [applyAll_isSome]
  rfl

/-- An option that sets one of the nine fields read by `EndpointConfig` always
completes, and keeps two accumulators with equal `EndpointConfig` so. -/
theorem feeds_step (c : OptCall) (hc : c.feedsEndpointConfig = true) (w w2 : World)
    (hR : w.opts.EndpointConfig = w2.opts.EndpointConfig) :
    ∃ w1 w3, c.toOption w = some w1 ∧ c.toOption w2 = some w3 ∧
      w1.opts.EndpointConfig = w3.opts.EndpointConfig := by
  simp only [Options.EndpointConfig, EndpointConfig.mk.injEq] at hR
  cases c <;> first
    | exact absurd hc Bool.false_ne_true
    | exact ⟨_, _, rfl, rfl, by simp [Options.EndpointConfig, hR]⟩

/-- An option that sets none of the nine fields leaves `EndpointConfig` as it was. -/
theorem other_step (c : OptCall) (hc : c.feedsEndpointConfig = false) (w w1 : World)
    (hw : c.toOption w = some w1) :
    w1.opts.EndpointConfig = w.opts.EndpointConfig := by
  cases c <;>
    simp only [OptCall.toOption, OptCall.feedsEndpointConfig, OptRegistry, OptSelector,
      OptGlobalPlugin, OptHeartbeatTime,
      OptTlsFile, OptTlsConfig, OptProtoFunc, OptRetryTimes, OptSessionAge,
      OptContextAge, OptSlowCometDuration, OptBodyCodec, OptPrintDetail, OptCountTime,
      OptNetwork, OptLocalIP] at hw hc
  case registry r =>
    split at hw
    · cases hw
    · cases hw; rfl
  all_goals first | (cases hw; rfl) | cases hc

/-- Dropping the options that set none of the nine fields does not change the
resulting `EndpointConfig`. -/
theorem endpoint_filter (calls : List OptCall) (w w2 w1 : World)
    (hR : w.opts.EndpointConfig = w2.opts.EndpointConfig)
    (hw : applyAll (calls.map OptCall.toOption) w = some w1) :
    ∃ w3, applyAll ((calls.filter OptCall.feedsEndpointConfig).map OptCall.toOption) w2 = some w3 ∧
      w3.opts.EndpointConfig = w1.opts.EndpointConfig := by
  induction calls generalizing w w2 with
  | nil =>
    simp only [List.map_nil, applyAll, Option.some.injEq] at hw
    subst hw
    exact ⟨w2, rfl, hR.symm⟩
  | cons c rest ih =>
    simp only [List.map_cons, applyAll] at hw
    cases h1 : c.toOption w with
    | none => simp [h1] at hw
    | some wa =>
      rw [h1] at hw
      simp only [Option.some_bind] at hw
      cases hc : c.feedsEndpointConfig with
      | true =>
        obtain ⟨wb, wc, hb, hc2, hR2⟩ := feeds_step c hc w w2 hR
        rw [h1] at hb
        cases hb
        obtain ⟨w3, h3, h4⟩ := ih wa wc hR2 hw
        refine ⟨w3, ?_, h4⟩
        simp only [List.filter_cons, hc, if_true, List.map_cons, applyAll, hc2, Option.some_bind]
        exact h3
      | false =>
        have hR2 := (other_step c hc w wa h1).trans hR
        obtain ⟨w3, h3, h4⟩ := ih wa w2 hR2 hw
        refine ⟨w3, ?_, h4⟩
        simpa only [List.filter_cons, hc, Bool.false_eq_true, if_false] using h3

/-- Claim C6: for every `Options` value `o`, `o.EndpointConfig()` has `Network`,
`LocalIP`, `DefaultBodyCodec`, `DefaultSessionAge`, `DefaultContextAge`,
`SlowCometDuration`, `PrintDetail`, `CountTime` and `DialTimeout` equal to
`o.Network`, `o.LocalIP`, `o.BodyCodec`, `o.SessionAge`, `o.ContextAge`,
`o.SlowCometDuration`, `o.PrintDetail`, `o.CountTime` and `o.DialTimeout`; it
does not depend on the other fields of `o`; and the `EndpointConfig` of
`NewOptions(opts...)` is the `EndpointConfig` of `NewOptions` applied to only
those options of the list that set one of these fields. -/
theorem C6_EndpointConfig (K : PackageConsts) (h : SelectorHeap) :
    (∀ o : Options,
      o.EndpointConfig.Network = o.Network ∧ o.EndpointConfig.LocalIP = o.LocalIP ∧
      o.EndpointConfig.DefaultBodyCodec = o.BodyCodec ∧
      o.EndpointConfig.DefaultSessionAge = o.SessionAge ∧
      o.EndpointConfig.DefaultContextAge = o.ContextAge ∧
      o.EndpointConfig.SlowCometDuration = o.SlowCometDuration ∧
      o.EndpointConfig.PrintDetail = o.PrintDetail ∧
      o.EndpointConfig.CountTime = o.CountTime ∧
      o.EndpointConfig.DialTimeout = o.DialTimeout) ∧
    (∀ (o : Options) (ctx : Context) (hb : Duration) (rt : Int) (cert key : String)
        (tls : TlsConfig) (pf : ProtoFunc) (reg : Registry) (sel : Selector) (gp : List Plugin),
      ({ o with Context := ctx, HeartbeatTime := hb, RetryTimes := rt, TlsCertFile := cert,
                TlsKeyFile := key, TLSConfig := tls, ProtoFunc := pf, Registry := reg,
                Selector := sel, GlobalPlugin := gp } : Options).EndpointConfig
        = o.EndpointConfig) ∧
    (∀ (calls : List OptCall) (w : World),
      NewOptions K (calls.map OptCall.toOption) h = some w →
      ∃ w1, NewOptions K ((calls.filter OptCall.feedsEndpointConfig).map OptCall.toOption) h
          = some w1 ∧
        w1.opts.EndpointConfig = w.opts.EndpointConfig) := by
  refine ⟨fun o => ⟨rfl, rfl, rfl, rfl, rfl, rfl, rfl, rfl, rfl⟩, ?_, ?_⟩
  · intros
    rfl
  · intro calls w hw
    exact endpoint_filter calls _ _ w rfl hw

/-- Claim C6 at a concrete input: with `OptHeartbeatTime(9)` and `OptRetryTimes(5)`
around `OptNetwork("udp")`, the `EndpointConfig` is that of
`NewOptions(OptNetwork("udp"))`. -/
theorem C6_EndpointConfig_witness :
    ∃ w1, NewOptions ⟨"json", 1, 1, 1, 1, 3, none, none⟩
        ([OptCall.network "udp"].map OptCall.toOption) (fun _ => none) = some w1 ∧
      w1.opts.EndpointConfig = ⟨"udp", "0.0.0.0", "json", 1, 1, 1, false, false, 1⟩ :=
  (C6_EndpointConfig ⟨"json", 1, 1, 1, 1, 3, none, none⟩ (fun _ => none)).2.2
    [OptCall.heartbeatTime 9, OptCall.network "udp", OptCall.retryTimes 5]
    ⟨{ defaultOptions ⟨"json", 1, 1, 1, 1, 3, none, none⟩ with
        HeartbeatTime := 9, Network := "udp", RetryTimes := 5 }, fun _ => none⟩ rfl

end client

/-! ## Codec registry -/

namespace codec

/-- Claim C7: for every codec `c` and every prior state of the codec registry
(also one that already holds a codec with the same ID or name), `Reg(c)`
succeeds and afterwards `Get(c.ID())` and `GetByName(c.Name())` both return `c`
with a nil error; in particular a second registration under the same ID
overwrites the first. -/
theorem C7_reg_then_lookup :
    (∀ (c : Codec) (m : CodecMap),
      ∃ m1, Reg c m = Except.ok m1 ∧ Get m1 c.ID = Except.ok c ∧
        GetByName m1 c.Name = Except.ok c) ∧
    (∀ (c1 c2 : Codec) (m : CodecMap), c1.ID = c2.ID →
      ∃ m1 m2, Reg c1 m = Except.ok m1 ∧ Reg c2 m1 = Except.ok m2 ∧
        Get m2 c1.ID = Except.ok c2) := by
  constructor
  · intro c m
    refine ⟨_, rfl, ?_, ?_⟩
    · simp [Get]
    · simp [GetByName]
  · intro c1 c2 m hid
    refine ⟨_, _, rfl, rfl, ?_⟩
    simp [Get, hid]

/-- Claim C7 at a concrete input: on the empty registry, codec 116 "test" is
registered twice, as object 1 and then as object 2; both lookups return
object 2. -/
theorem C7_reg_then_lookup_witness :
    ∃ m1 m2, Reg ⟨116, "test", 1⟩ CodecMap.empty = Except.ok m1 ∧
      Reg ⟨116, "test", 2⟩ m1 = Except.ok m2 ∧
      Get m2 116 = Except.ok ⟨116, "test", 2⟩ :=
  C7_reg_then_lookup.2 ⟨116, "test", 1⟩ ⟨116, "test", 2⟩ CodecMap.empty rfl

end codec

/-! ## Server: log setting and first shutdown sweep -/

namespace dserver

/-- Claim C8: in `initLogSetting`, whenever `Debug` is true, whatever `ENV_NAME`,
`logger.Level` and `logger.Path` are, the map handed to
`logger.SetConfigWithMap` has `level = "ALL"` and `stdout = true`, and the
logger's debug flag is true. -/
theorem C8_debug_overrides (glog : GMap → Option String) (config : LogConfig) (l0 : Logger)
    (hd : config.Debug = true) :
    (∃ m, (initLogSetting glog config l0).2.configMap = some m ∧
      m "level" = some (Val.str "ALL") ∧ m "stdout" = some (Val.bool true) ∧
      (initLogSetting glog config l0).1 = glog m) ∧
    (initLogSetting glog config l0).2.debug = true := by
  obtain ⟨env, level, path, dbg⟩ := config
  simp only at hd
  subst hd
  simp only [initLogSetting, Logger.SetConfigWithMap, Logger.SetDebug, Logger.SetStdoutPrint]
  split_ifs <;> simp [GMap.set]

/-- Claim C8 at a concrete input: production environment, level "ERRO" and a log path
configured, `Debug` on. -/
theorem C8_debug_overrides_witness :
    (∃ m, (initLogSetting (fun _ => none) ⟨"product", "ERRO", "/var/log", true⟩
        ⟨false, false, none⟩).2.configMap = some m ∧
      m "level" = some (Val.str "ALL") ∧ m "stdout" = some (Val.bool true) ∧
      (initLogSetting (fun _ => none) ⟨"product", "ERRO", "/var/log", true⟩
        ⟨false, false, none⟩).1 = (fun _ => none) m) ∧
    (initLogSetting (fun _ => none) ⟨"product", "ERRO", "/var/log", true⟩
        ⟨false, false, none⟩).2.debug = true :=
  C8_debug_overrides _ _ _ rfl

/-- Claim C9: in `initLogSetting`, when no `logger.Level` is configured and `Debug`
is off, the map handed to `logger.SetConfigWithMap` is chosen by environment:
`ENV_NAME` "dev" or "develop" gives level "DEVELOP" with `stdout = true`;
"test" gives level "INFO" with no `stdout` entry and stdout printing disabled;
every other `ENV_NAME` gives level "PRODUCT" with no `stdout` entry and stdout
printing disabled. -/
theorem C9_level_by_environment (glog : GMap → Option String) (config : LogConfig)
    (l0 : Logger) (hl : config.Level = "") (hd : config.Debug = false) :
    ∃ m, (initLogSetting glog config l0).2.configMap = some m ∧
      ((config.ENV_NAME = "dev" ∨ config.ENV_NAME = "develop") →
        m "level" = some (Val.str "DEVELOP") ∧ m "stdout" = some (Val.bool true)) ∧
      (config.ENV_NAME = "test" →
        m "level" = some (Val.str "INFO") ∧ m "stdout" = none ∧
        (initLogSetting glog config l0).2.stdoutPrint = false) ∧
      ((config.ENV_NAME ≠ "dev" ∧ config.ENV_NAME ≠ "develop" ∧ config.ENV_NAME ≠ "test") →
        m "level" = some (Val.str "PRODUCT") ∧ m "stdout" = none ∧
        (initLogSetting glog config l0).2.stdoutPrint = false) := by
  obtain ⟨env, level, path, dbg⟩ := config
  simp only at hl hd
  subst hl hd
  have hlen : ("" : String).length ≤ 0 := by decide
  by_cases hp : path.length > 0 <;> by_cases hdev : env = "dev" ∨ env = "develop" <;>
    by_cases ht : env = "test"
  all_goals
    simp [initLogSetting, Logger.SetConfigWithMap, Logger.SetDebug, Logger.SetStdoutPrint,
      hlen, hp, hdev, ht, GMap.set, GMap.empty]
  all_goals
    intro h
    exact hdev.resolve_left h

/-- Claim C9 at a concrete input: the test environment with a log path, no level
configured, `Debug` off. -/
theorem C9_level_by_environment_witness :
    ∃ m, (initLogSetting (fun _ => none) ⟨"test", "", "/var/log", false⟩
        ⟨true, true, none⟩).2.configMap = some m ∧
      (("test" = "dev" ∨ "test" = "develop") →
        m "level" = some (Val.str "DEVELOP") ∧ m "stdout" = some (Val.bool true)) ∧
      ("test" = "test" →
        m "level" = some (Val.str "INFO") ∧ m "stdout" = none ∧
        (initLogSetting (fun _ => none) ⟨"test", "", "/var/log", false⟩
          ⟨true, true, none⟩).2.stdoutPrint = false) ∧
      (("test" ≠ "dev" ∧ "test" ≠ "develop" ∧ "test" ≠ "test") →
        m "level" = some (Val.str "PRODUCT") ∧ m "stdout" = none ∧
        (initLogSetting (fun _ => none) ⟨"test", "", "/var/log", false⟩
          ⟨true, true, none⟩).2.stdoutPrint = false) :=
  C9_level_by_environment (fun _ => none) ⟨"test", "", "/var/log", false⟩ ⟨true, true, none⟩
    rfl rfl

/-- Claim C10: `firstSweep` returns an error exactly when the server is not already
shutting down and a before-stop callback is set and returns false; then the
shutting flag is false afterwards. In every other case it returns nil and the
shutting flag is true afterwards. When the flag was already true on entry the
callback is not invoked and nothing changes: the server, the file system and
the log are as before. A callback installed with `BeforeStop` is the one
consulted. -/
theorem C10_firstSweep (that : DServer) (fs : FileSystem) :
    (((firstSweep that fs).err.isSome = true) ↔
      (that.shutting = false ∧
        ∃ f, that.beforeStopFunc = some f ∧
          f { that.view with shutting := true } = false)) ∧
    ((firstSweep that fs).err.isSome = true → (firstSweep that fs).server.shutting = false) ∧
    ((firstSweep that fs).err = none → (firstSweep that fs).server.shutting = true) ∧
    (that.shutting = true →
      (firstSweep that fs).err = none ∧ (firstSweep that fs).callbackCalls = 0 ∧
      (firstSweep that fs).server = that ∧ (firstSweep that fs).fs = fs ∧
      (firstSweep that fs).log = []) ∧
    (∀ f : StopFunc, that.shutting = false →
      (((firstSweep (that.BeforeStop (some f)) fs).err.isSome = true) ↔
        f { that.view with shutting := true } = false) ∧
      (firstSweep (that.BeforeStop (some f)) fs).callbackCalls = 1) := by
  obtain ⟨sh, cb, pid, mp⟩ := that
  have step : ∀ f : StopFunc,
      (((firstSweep ⟨false, some f, pid, mp⟩ fs).err.isSome = true) ↔
        f ⟨true, pid, mp⟩ = false) ∧
      (firstSweep ⟨false, some f, pid, mp⟩ fs).callbackCalls = 1 ∧
      ((firstSweep ⟨false, some f, pid, mp⟩ fs).err.isSome = true →
        (firstSweep ⟨false, some f, pid, mp⟩ fs).server.shutting = false) ∧
      ((firstSweep ⟨false, some f, pid, mp⟩ fs).err = none →
        (firstSweep ⟨false, some f, pid, mp⟩ fs).server.shutting = true) := by
    intro f
    cases hf : f ⟨true, pid, mp⟩ <;> simp [firstSweep, DServer.view, hf]
  cases sh with
  | true => simp [firstSweep, DServer.view, DServer.BeforeStop]
  | false =>
    have last : ∀ f : StopFunc,
        (((firstSweep ((DServer.mk false cb pid mp).BeforeStop (some f)) fs).err.isSome = true) ↔
          f { (DServer.mk false cb pid mp).view with shutting := true } = false) ∧
        (firstSweep ((DServer.mk false cb pid mp).BeforeStop (some f)) fs).callbackCalls = 1 :=
      fun f => ⟨(step f).1, (step f).2.1⟩
    cases cb with
    | none =>
      refine ⟨?_, ?_, ?_, ?_, fun f _ => last f⟩ <;> simp [firstSweep, DServer.view]
    | some g =>
      refine ⟨?_, (step g).2.2.1, (step g).2.2.2, ?_, fun f _ => last f⟩
      · rw [(step g).1]
        simp [DServer.view]
      · simp

/-- Claim C10 at a concrete input: a server that is not shutting down, whose pid file
exists and whose callback refuses; the sweep removes the pid file, returns the
error and leaves the shutting flag false. -/
theorem C10_firstSweep_witness :
    (firstSweep ⟨false, some (fun _ => false), "/tmp/d.pid", false⟩
        ⟨["/tmp/d.pid", "/tmp/x"], []⟩).err = some interruptedMsg ∧
    (firstSweep ⟨false, some (fun _ => false), "/tmp/d.pid", false⟩
        ⟨["/tmp/d.pid", "/tmp/x"], []⟩).server.shutting = false ∧
    (firstSweep ⟨false, some (fun _ => false), "/tmp/d.pid", false⟩
        ⟨["/tmp/d.pid", "/tmp/x"], []⟩).fs = ⟨["/tmp/x"], []⟩ ∧
    (firstSweep ⟨false, some (fun _ => false), "/tmp/d.pid", false⟩
        ⟨["/tmp/d.pid", "/tmp/x"], []⟩).callbackCalls = 1 := by
  have h := (C10_firstSweep ⟨false, some (fun _ => false), "/tmp/d.pid", false⟩
    ⟨["/tmp/d.pid", "/tmp/x"], []⟩).2.1
  refine ⟨by decide, h (by decide), by decide, by decide⟩

end dserver
